import Mathlib

/-!
# Verification of the API-gateway token authorizer

Shallow embedding of `src/backend/kitchen/src/auth/authorizer.ts`:
the `AuthPolicy` builder class, the `validate_token` function with its
process-wide PEM cache, and the `lambdaHandler` entry point.

External libraries (`jsonwebtoken`, `jwk-to-pem`, `axios`) are modelled as
oracle functions carried in an `Env` record; the module-global mutable state
(`is_cold_start`, `pems`) is threaded explicitly as a `CacheState` value.
Thrown JS errors become `Except` results; the error enumeration `AuthErr`
has one constructor per `throw` site of the source.
-/

namespace Authorizer

/-- JS `s.split(c)` for a one-character separator, on character lists. -/
def splitCharList (c : Char) : List Char → List (List Char)
  | [] => [[]]
  | x :: xs =>
    match splitCharList c xs with
    | [] => if x = c then [[], []] else [[x]]
    | y :: ys => if x = c then [] :: y :: ys else (x :: y) :: ys

/-- JS `s.split(c)` for a one-character separator. -/
def jsSplit (c : Char) (s : String) : List String :=
  (splitCharList c s.data).map (fun l => ⟨l⟩)

/-- JS `s.startsWith(p)`. -/
def jsStartsWith (s p : String) : Bool :=
  s.data.take p.data.length = p.data

/-- JS `s.substring(n)` (for `n` within bounds): drop the first `n`
characters. -/
def jsDrop (s : String) (n : Nat) : String :=
  ⟨s.data.drop n⟩

/-- JS `s.toLowerCase()` (ASCII is all the source feeds it). -/
def jsToLower (s : String) : String :=
  ⟨s.data.map Char.toLower⟩

/-- JS `s.toUpperCase()` (ASCII is all the source feeds it). -/
def jsToUpper (s : String) : String :=
  ⟨s.data.map Char.toUpper⟩

/-- One `throw` site of the source file, identified by its message. -/
inductive AuthErr where
  /-- `Invalid HTTP verb ...` thrown by `addMethod`. -/
  | invalidVerb : AuthErr
  /-- `Invalid resource path: ...` thrown by `addMethod`. -/
  | invalidResource : AuthErr
  /-- `No statements defined for the policy` thrown by `build`. -/
  | emptyPolicy : AuthErr
  /-- The `AxiosError` rethrown when the key-set fetch or key parsing fails. -/
  | keyFetch : AuthErr
  /-- `Invalid JWT token` thrown when `jwt.decode` yields nothing. -/
  | invalidJwt : AuthErr
  /-- `Invalid issuer` thrown on an issuer mismatch. -/
  | invalidIssuer : AuthErr
  /-- `not an access token` thrown on a `token_use` mismatch. -/
  | notAccessToken : AuthErr
  /-- `invalid access token` thrown when the kid has no cached PEM. -/
  | invalidAccessToken : AuthErr
  /-- `Verification error` thrown when `jwt.verify` fails. -/
  | verificationError : AuthErr
  /-- `Bearer is a recommendation in the RFC` thrown on a bad scheme. -/
  | missingBearer : AuthErr
  /-- A failure of `event.methodArn.split` indexing (a JS `TypeError`). -/
  | arnParse : AuthErr
  deriving Repr, DecidableEq

/-- A condition block attached to a rule (opaque to the builder logic:
the source stores and copies it without inspecting more than its length). -/
abbrev Cond := String

/-- An entry of `allowMethods` / `denyMethods`: the object
`{ resource_arn, conditions }` pushed by `addMethod`.  `conditions` is
`none` for a JS `undefined` and `some l` for an array. -/
structure Method where
  resource_arn : String
  conditions : Option (List Cond)
  deriving Repr, DecidableEq

/-- The JS truthiness test `!curMethod.conditions || curMethod.conditions.length === 0`. -/
def isUnconditioned (c : Option (List Cond)) : Bool :=
  match c with
  | none => true
  | some l => l.isEmpty

/-- A rendered policy statement as produced by `get_empty_statement` and
mutated by `get_statement_for_effect`. -/
structure Statement where
  Action : String
  Effect : String
  Resource : List String
  Condition : Option (List Cond)
  deriving Repr, DecidableEq

/-- The policy document `{ Version, Statement }`. -/
structure PolicyDocument where
  Version : String
  Statement : List Statement
  deriving Repr, DecidableEq

/-- The value returned by `AuthPolicy.build`. -/
structure AuthResponse where
  principalId : String
  policyDocument : PolicyDocument
  deriving Repr, DecidableEq

/-- The mutable fields of the `AuthPolicy` class. -/
structure AuthPolicy where
  principalId : String
  awsAccountId : String
  restApiId : String
  region : String
  stage : String
  allowMethods : List Method
  denyMethods : List Method
  deriving Repr, DecidableEq

/-- The `AuthPolicy` constructor: both buckets start empty. -/
def AuthPolicy.init (principalId awsAccountId restApiId region stage : String) :
    AuthPolicy :=
  { principalId := principalId, awsAccountId := awsAccountId,
    restApiId := restApiId, region := region, stage := stage,
    allowMethods := [], denyMethods := [] }

/-- `Object.keys(HttpVerb)`: the KEY names of the verb map (note that this
includes the key `ALL`, whose value is `*`). -/
def httpVerbKeys : List String :=
  ["GET", "POST", "PUT", "PATCH", "DELETE", "HEAD", "OPTIONS", "ALL"]

/-- A character allowed by the path pattern `^[/.a-zA-Z0-9-*]+$`. -/
def pathChar (c : Char) : Bool :=
  c = '/' || c = '.' || (('a' ≤ c && c ≤ 'z') || ('A' ≤ c && c ≤ 'Z')) ||
    ('0' ≤ c && c ≤ '9') || c = '-' || c = '*'

/-- `resource.match('^[/.a-zA-Z0-9-*]+$')` succeeds: anchored on both ends,
so the whole string must consist of characters of the class (and be
non-empty, which the caller has already established). -/
def matchesPathRegex (s : String) : Bool :=
  s.data.length > 0 && s.data.all pathChar

/-- `AuthPolicy.addMethod`.  Verb gate, path gate, leading-slash strip,
resource-ARN construction, then a push onto the bucket selected by
`effect.toLowerCase()` (any other effect string is silently dropped). -/
def AuthPolicy.addMethod (p : AuthPolicy) (effect verb resource : String)
    (conditions : Option (List Cond)) : Except AuthErr AuthPolicy :=
  if verb ≠ "*" && !(httpVerbKeys.contains verb) then
    .error .invalidVerb
  else if resource.data.length > 0 && !(matchesPathRegex resource) then
    .error .invalidResource
  else
    let resource1 :=
      if resource.data.head? = some '/' then jsDrop resource 1 else resource
    let resource_arn :=
      "arn:aws:execute-api:" ++ p.region ++ ":" ++ p.awsAccountId ++ ":" ++
        p.restApiId ++ "/" ++ p.stage ++ "/" ++ verb ++ "/" ++ resource1
    if jsToLower effect = "allow" then
      .ok { p with allowMethods :=
              p.allowMethods ++ [⟨resource_arn, conditions⟩] }
    else if jsToLower effect = "deny" then
      .ok { p with denyMethods :=
              p.denyMethods ++ [⟨resource_arn, conditions⟩] }
    else
      .ok p

/-- `get_empty_statement`: effect capitalised as
`charAt(0).toUpperCase() + slice(1).toLowerCase()`. -/
def get_empty_statement (effect : String) : Statement :=
  { Action := "execute-api:Invoke",
    Effect := jsToUpper ⟨effect.data.take 1⟩ ++ jsToLower (jsDrop effect 1),
    Resource := [],
    Condition := none }

/-- The conditional singleton statement built inside the `forEach` of
`get_statement_for_effect`. -/
def condStatement (effect : String) (m : Method) : Statement :=
  { get_empty_statement effect with
      Resource := [m.resource_arn], Condition := m.conditions }

/-- The `forEach` loop of `get_statement_for_effect`: `stmts` accumulates the
pushed conditional statements, `res` the `Resource` array of the shared
merged statement. -/
def statementsLoop (effect : String) :
    List Method → List Statement → List String → List Statement × List String
  | [], stmts, res => (stmts, res)
  | m :: ms, stmts, res =>
    if isUnconditioned m.conditions then
      statementsLoop effect ms stmts (res ++ [m.resource_arn])
    else
      statementsLoop effect ms (stmts ++ [condStatement effect m]) res

/-- `get_statement_for_effect`: on a non-empty bucket, the conditional
singletons in iteration order followed by the merged statement (pushed last,
unconditionally). -/
def get_statement_for_effect (effect : String) (methods : List Method) :
    List Statement :=
  if methods.length > 0 then
    let acc := statementsLoop effect methods [] []
    acc.1 ++ [{ get_empty_statement effect with Resource := acc.2 }]
  else
    []

/-- `allowAllMethods()`: `addMethod('Allow', HttpVerb.ALL, '*', [])`. -/
def AuthPolicy.allowAllMethods (p : AuthPolicy) : Except AuthErr AuthPolicy :=
  p.addMethod "Allow" "*" "*" (some [])

/-- `denyAllMethods()`: `addMethod('Deny', HttpVerb.ALL, '*', [])`.
Defined in the source but never invoked by `lambdaHandler`. -/
def AuthPolicy.denyAllMethods (p : AuthPolicy) : Except AuthErr AuthPolicy :=
  p.addMethod "Deny" "*" "*" (some [])

/-- `AuthPolicy.build`. -/
def AuthPolicy.build (p : AuthPolicy) : Except AuthErr AuthResponse :=
  if p.allowMethods.length = 0 && p.denyMethods.length = 0 then
    .error .emptyPolicy
  else
    .ok { principalId := p.principalId,
          policyDocument :=
            { Version := "2012-10-17",
              Statement :=
                get_statement_for_effect "Allow" p.allowMethods ++
                  get_statement_for_effect "Deny" p.denyMethods } }

/-- A JWK entry of the fetched key set: `{ kid, kty, n, e }`. -/
structure Jwk where
  kid : String
  kty : String
  n : String
  e : String
  deriving Repr, DecidableEq

/-- The decoded JWT header (only `kid` is read by the source). -/
structure JwtHeader where
  kid : String
  deriving Repr, DecidableEq

/-- The fields of a decoded/verified JWT payload that the source reads:
`iss`, `token_use`, `sub` and `cognito:groups` (absent ⇒ `none`). -/
structure JwtPayload where
  iss : String
  token_use : String
  sub : String
  groups : Option (List String)
  deriving Repr, DecidableEq

/-- The result of `jwt.decode(token, { complete: true })`. -/
structure DecodedJwt where
  header : JwtHeader
  payload : JwtPayload
  deriving Repr, DecidableEq

/-- The environment of one invocation: the configuration read from
`process.env` and oracles for the external libraries.
`fetchKeys` is the outcome of `axios.get(keys_url)` followed by
`response.data.keys` (`none` covers a network failure or a malformed
response body); `jwkToPem` maps the `{ kty, n, e }` triple to a PEM
(`none` when `jwk-to-pem` throws on malformed key material);
`decode` and `verify` stand for `jwt.decode` and
`jwt.verify(token, pem, { issuer, audience })`, the latter returning the
verified payload or `none` when signature/audience/expiry checking fails. -/
structure Env where
  user_pool_id : String
  app_client_id : String
  admin_group_name : String
  fetchKeys : Option (List Jwk)
  jwkToPem : String → String → String → Option String
  decode : String → Option DecodedJwt
  verify : String → String → String → String → Option JwtPayload

/-- The module-global mutable state: `is_cold_start` and the `pems`
dictionary (an insertion-ordered map from kid to PEM). -/
structure CacheState where
  is_cold_start : Bool
  pems : List (String × String)
  deriving Repr, DecidableEq

/-- The JS assignment `pems[kid] = pem`: overwrite an existing key in
place, otherwise append. -/
def setPem (pems : List (String × String)) (kid pem : String) :
    List (String × String) :=
  match pems with
  | [] => [(kid, pem)]
  | kv :: rest =>
    if kv.1 = kid then (kid, pem) :: rest else kv :: setPem rest kid pem

/-- The JS read `pems[kid]`, with JS falsiness: an absent key behaves like
the (falsy) empty string. -/
def lookupPem (pems : List (String × String)) (kid : String) : String :=
  match pems with
  | [] => ""
  | kv :: rest => if kv.1 = kid then kv.2 else lookupPem rest kid

/-- The `keys.forEach` body: convert each JWK and store it under its kid.
A `jwk-to-pem` failure aborts the loop, keeping the entries already
written into the (module-global, mutated in place) dictionary. -/
def loadKeys (env : Env) :
    List Jwk → List (String × String) →
      Except AuthErr Unit × List (String × String)
  | [], pems => (.ok (), pems)
  | k :: ks, pems =>
    match env.jwkToPem k.kty k.n k.e with
    | none => (.error .keyFetch, pems)
    | some pem => loadKeys env ks (setPem pems k.kid pem)

/-- The expected issuer `https://cognito-idp.<region>.amazonaws.com/<pool>`. -/
def issuerUrl (env : Env) (region : String) : String :=
  "https://cognito-idp." ++ region ++ ".amazonaws.com/" ++ env.user_pool_id

/-- The cold-start block of `validate_token` (lines 147-164): on a cold
start, fetch and parse the key set; any failure is rethrown (as an
`AxiosError`) BEFORE `is_cold_start` is cleared, so the cold flag survives
a failed fetch and the next request retries. -/
def ensureKeys (env : Env) (st : CacheState) :
    Except AuthErr Unit × CacheState :=
  if st.is_cold_start then
    match env.fetchKeys with
    | none => (.error .keyFetch, st)
    | some keys =>
      match loadKeys env keys st.pems with
      | (.error e, pems1) => (.error e, { st with pems := pems1 })
      | (.ok _, pems1) => (.ok (), { is_cold_start := false, pems := pems1 })
  else
    (.ok (), st)

/-- `validate_token(token, region)`: cold-start key load, then the ordered
gates — decode, issuer, `token_use`, kid lookup, signature/audience
verification — threading the cache state. -/
def validate_token (env : Env) (token region : String) (st : CacheState) :
    Except AuthErr JwtPayload × CacheState :=
  let iss := issuerUrl env region
  match ensureKeys env st with
  | (.error e, st1) => (.error e, st1)
  | (.ok _, st1) =>
    match env.decode token with
    | none => (.error .invalidJwt, st1)
    | some decodedJwt =>
      if decodedJwt.payload.iss ≠ iss then
        (.error .invalidIssuer, st1)
      else if decodedJwt.payload.token_use ≠ "access" then
        (.error .notAccessToken, st1)
      else
        let pem := lookupPem st1.pems decodedJwt.header.kid
        if pem = "" then
          (.error .invalidAccessToken, st1)
        else
          match env.verify token pem iss env.app_client_id with
          | none => (.error .verificationError, st1)
          | some payload => (.ok payload, st1)

/-- The authorizer event: `methodArn` and `authorizationToken`. -/
structure Event where
  methodArn : String
  authorizationToken : String
  deriving Repr, DecidableEq

/-- The membership test
`claims['cognito:groups'] && claims['cognito:groups'].includes(admin)`:
an absent claim is falsy; a (possibly empty) array proceeds to `includes`. -/
def groupsInclude (groups : Option (List String)) (name : String) : Bool :=
  match groups with
  | none => false
  | some l => l.contains name

/-- JS indexing `arr[n]` for the handler's ARN pieces: an index beyond the
array's end is the JS `undefined`, which stringifies to `"undefined"` inside
the template literals these values are interpolated into. -/
def jsAt (l : List String) (n : Nat) : String :=
  (l[n]?).getD "undefined"

/-- The body of `lambdaHandler`'s `try` block.  `tmp[5].split('/')` throws a
`TypeError` when the ARN has fewer than six `:`-separated fields; a missing
`api_gateway_arn_temp[1]` is the JS `undefined`, which stringifies to
`"undefined"` inside the resource-ARN template literal. -/
def lambdaHandlerInner (env : Env) (event : Event) (st : CacheState) :
    Except AuthErr AuthResponse × CacheState :=
  let tmp := jsSplit ':' event.methodArn
  match tmp[5]? with
  | none => (.error .arnParse, st)
  | some tmp5 =>
    let api_gateway_arn_temp := jsSplit '/' tmp5
    let region := jsAt tmp 3
    let aws_account_id := jsAt tmp 4
    if jsStartsWith event.authorizationToken "Bearer " then
      let token := jsDrop event.authorizationToken 7
      match validate_token env token region st with
      | (.error e, st1) => (.error e, st1)
      | (.ok payload, st1) =>
        let policy := AuthPolicy.init payload.sub aws_account_id
          (jsAt api_gateway_arn_temp 0) region
          (jsAt api_gateway_arn_temp 1)
        match
          (if groupsInclude payload.groups env.admin_group_name then
            policy.allowAllMethods
          else
            .ok policy) with
        | .error e => (.error e, st1)
        | .ok policy1 =>
          match policy1.build with
          | .error e => (.error e, st1)
          | .ok response => (.ok response, st1)
    else
      (.error .missingBearer, st)

/-- `lambdaHandler`: the catch-all wrapper that maps every thrown error to
`new Error('Unauthorized')`.  The module-global cache mutations performed
before the throw persist. -/
def lambdaHandler (env : Env) (event : Event) (st : CacheState) :
    Except String AuthResponse × CacheState :=
  match lambdaHandlerInner env event st with
  | (.error _, st1) => (.error "Unauthorized", st1)
  | (.ok response, st1) => (.ok response, st1)

/-- Whether the handler produced a decision document (as opposed to
signalling an error). -/
def isDecision (r : Except String AuthResponse) : Bool :=
  match r with
  | .ok _ => true
  | .error _ => false

/-- The merged bulk statement for an effect bucket. -/
def mergedStatement (effect : String) (ms : List Method) : Statement :=
  { get_empty_statement effect with
      Resource :=
        (ms.filter fun m => isUnconditioned m.conditions).map Method.resource_arn }

/-- The verb set as the SPEC enumerates it (claim wording), for comparison
with the source's `Object.keys`-based check. -/
def specVerbSet : List String :=
  ["GET", "POST", "PUT", "PATCH", "DELETE", "HEAD", "OPTIONS", "*"]

/-- The trusted issuer URL for pool `pool` in region `r1`. -/
def issR1 : String := "https://cognito-idp.r1.amazonaws.com/pool"

/-- A valid token (`tok`) whose verified claims carry group `Users` only —
no admin group. -/
def envNonAdmin : Env :=
  { user_pool_id := "pool"
    app_client_id := "client"
    admin_group_name := "admins"
    fetchKeys := some [⟨"k1", "RSA", "n1", "e1"⟩]
    jwkToPem := fun _ _ _ => some "PEM1"
    decode := fun t =>
      if t = "tok" then
        some ⟨⟨"k1"⟩, ⟨issR1, "access", "user-1", some ["Users"]⟩⟩
      else none
    verify := fun t pem i aud =>
      if t = "tok" && pem = "PEM1" && i = issR1 && aud = "client" then
        some ⟨issR1, "access", "user-1", some ["Users"]⟩
      else none }

/-- Same environment, but the token's verified claims carry the configured
admin group. -/
def envAdmin : Env :=
  { envNonAdmin with
      decode := fun t =>
        if t = "tok" then
          some ⟨⟨"k1"⟩, ⟨issR1, "access", "user-1", some ["admins"]⟩⟩
        else none
      verify := fun t pem i aud =>
        if t = "tok" && pem = "PEM1" && i = issR1 && aud = "client" then
          some ⟨issR1, "access", "user-1", some ["admins"]⟩
        else none }

/-- Environment for the gate-order witness: `tokBad` decodes with a foreign
issuer; `tokX` decodes with the right issuer and purpose but an uncached
kid. -/
def envGates : Env :=
  { envNonAdmin with
      decode := fun t =>
        if t = "tokBad" then
          some ⟨⟨"k1"⟩, ⟨"https://evil.example/pool", "access", "u", none⟩⟩
        else if t = "tokX" then
          some ⟨⟨"kX"⟩, ⟨issR1, "access", "u", none⟩⟩
        else none }

/-- Environment whose key set has a well-formed first key and a malformed
second key (the `jwk-to-pem` oracle rejects it). -/
def envPartial : Env :=
  { user_pool_id := "pool"
    app_client_id := "client"
    admin_group_name := "admins"
    fetchKeys := some [⟨"k1", "RSA", "n1", "e1"⟩, ⟨"k2", "RSA", "bad", "e2"⟩]
    jwkToPem := fun _ n _ => if n = "bad" then none else some ("PEM-" ++ n)
    decode := fun _ => none
    verify := fun _ _ _ _ => none }

/-- The example request of the spec. -/
def evBearer : Event :=
  { methodArn := "arn:aws:execute-api:r1:123:abc/prod/GET/recipes"
    authorizationToken := "Bearer tok" }

/-- A builder holding one unconditioned and one conditioned Allow rule. -/
def pRoundTrip : AuthPolicy :=
  ⟨"u", "a", "api", "r", "s",
    [⟨"arnU", some []⟩, ⟨"arnC", some ["ctx-cond"]⟩], []⟩

/-- A Deny bucket whose only entry is conditioned. -/
def msCondOnly : List Method := [⟨"arnC", some ["ctx-cond"]⟩]

lemma statementsLoop_spec (effect : String) (ms : List Method)
    (stmts : List Statement) (res : List String) :
    statementsLoop effect ms stmts res =
      (stmts ++ (ms.filter fun m => !isUnconditioned m.conditions).map
          (condStatement effect),
        res ++ (ms.filter fun m => isUnconditioned m.conditions).map
          Method.resource_arn) := by
  induction ms generalizing stmts res with
  | nil => simp [statementsLoop]
  | cons m ms ih =>
    by_cases h : isUnconditioned m.conditions
    · simp [statementsLoop, h, ih, List.filter_cons]
    · simp [statementsLoop, h, ih, List.filter_cons]

lemma get_statement_for_effect_eq (effect : String) (ms : List Method)
    (h : ms ≠ []) :
    get_statement_for_effect effect ms =
      ((ms.filter fun m => !isUnconditioned m.conditions).map
          (condStatement effect)) ++ [mergedStatement effect ms] := by
  have hlen : ms.length > 0 := List.length_pos.mpr h
  simp [get_statement_for_effect, hlen, statementsLoop_spec, mergedStatement]

lemma validate_token_state (env : Env) (token region : String)
    (st : CacheState) :
    (validate_token env token region st).2 = (ensureKeys env st).2 := by
  unfold validate_token
  rcases h : ensureKeys env st with ⟨res, st1⟩
  cases res with
  | error e => simp
  | ok u =>
    cases env.decode token with
    | none => simp
    | some d =>
      by_cases h1 : d.payload.iss = issuerUrl env region
      · by_cases h2 : d.payload.token_use = "access"
        · by_cases h3 : lookupPem st1.pems d.header.kid = ""
          · simp [h1, h2, h3]
          · cases hv : env.verify token (lookupPem st1.pems d.header.kid)
                (issuerUrl env region) env.app_client_id with
            | none => simp [h1, h2, h3, hv]
            | some payload => simp [h1, h2, h3, hv]
        · simp [h1, h2]
      · simp [h1]

lemma loadKeys_jwkToPem_congr (env1 env2 : Env)
    (h : env1.jwkToPem = env2.jwkToPem)
    (keys : List Jwk) (pems : List (String × String)) :
    loadKeys env1 keys pems = loadKeys env2 keys pems := by
  induction keys generalizing pems with
  | nil => rfl
  | cons k ks ih =>
    unfold loadKeys
    rw [h]
    cases hk : env2.jwkToPem k.kty k.n k.e with
    | none => simp [hk]
    | some pem => simp [hk, ih]

lemma ensureKeys_congr (env1 env2 : Env)
    (hfk : env1.fetchKeys = env2.fetchKeys)
    (hjp : env1.jwkToPem = env2.jwkToPem) (st : CacheState) :
    ensureKeys env1 st = ensureKeys env2 st := by
  unfold ensureKeys
  rw [hfk]
  cases hf : env2.fetchKeys with
  | none => rfl
  | some keys =>
    simp only []
    rw [loadKeys_jwkToPem_congr env1 env2 hjp]

lemma ensureKeys_verify_irrel (env : Env)
    (v2 : String → String → String → String → Option JwtPayload)
    (st : CacheState) :
    ensureKeys { env with verify := v2 } st = ensureKeys env st :=
  ensureKeys_congr { env with verify := v2 } env rfl rfl st

lemma validate_token_invalid_issuer (env : Env) (token region : String)
    (st st1 : CacheState) (d : DecodedJwt)
    (hek : ensureKeys env st = (.ok (), st1))
    (hdec : env.decode token = some d)
    (hiss : d.payload.iss ≠ issuerUrl env region) :
    validate_token env token region st = (.error .invalidIssuer, st1) := by
  unfold validate_token
  rw [hek, hdec]
  simp [hiss]

lemma validate_token_unknown_kid (env : Env) (token region : String)
    (st st1 : CacheState) (d : DecodedJwt)
    (hek : ensureKeys env st = (.ok (), st1))
    (hdec : env.decode token = some d)
    (hiss : d.payload.iss = issuerUrl env region)
    (huse : d.payload.token_use = "access")
    (hkid : lookupPem st1.pems d.header.kid = "") :
    validate_token env token region st = (.error .invalidAccessToken, st1) := by
  unfold validate_token
  rw [hek, hdec]
  simp [hiss, huse, hkid]

lemma lambdaHandler_validated (env : Env) (event : Event)
    (st st1 : CacheState) (t5 : String) (payload : JwtPayload)
    (h5 : (jsSplit ':' event.methodArn)[5]? = some t5)
    (hb : jsStartsWith event.authorizationToken "Bearer " = true)
    (hv : validate_token env (jsDrop event.authorizationToken 7)
        (jsAt (jsSplit ':' event.methodArn) 3) st = (.ok payload, st1)) :
    lambdaHandler env event st =
      (match
        (if groupsInclude payload.groups env.admin_group_name then
          (AuthPolicy.init payload.sub (jsAt (jsSplit ':' event.methodArn) 4)
            (jsAt (jsSplit '/' t5) 0)
            (jsAt (jsSplit ':' event.methodArn) 3)
            (jsAt (jsSplit '/' t5) 1)).allowAllMethods
        else
          .ok (AuthPolicy.init payload.sub
            (jsAt (jsSplit ':' event.methodArn) 4)
            (jsAt (jsSplit '/' t5) 0)
            (jsAt (jsSplit ':' event.methodArn) 3)
            (jsAt (jsSplit '/' t5) 1))) with
      | .error _ => (.error "Unauthorized", st1)
      | .ok p1 =>
        match p1.build with
        | .error _ => (.error "Unauthorized", st1)
        | .ok r => (.ok r, st1)) := by
  unfold lambdaHandler lambdaHandlerInner
  simp only [h5, hb, hv]
  rcases ha : (if groupsInclude payload.groups env.admin_group_name then
      (AuthPolicy.init payload.sub (jsAt (jsSplit ':' event.methodArn) 4)
        (jsAt (jsSplit '/' t5) 0)
        (jsAt (jsSplit ':' event.methodArn) 3)
        (jsAt (jsSplit '/' t5) 1)).allowAllMethods
    else
      .ok (AuthPolicy.init payload.sub
        (jsAt (jsSplit ':' event.methodArn) 4)
        (jsAt (jsSplit '/' t5) 0)
        (jsAt (jsSplit ':' event.methodArn) 3)
        (jsAt (jsSplit '/' t5) 1))) with p1 | p1
  · simp [ha]
  · simp [ha]
    rcases hb2 : p1.build with r | r <;> simp [hb2]

/-- Claim C2: every failure inside the handler is re-signalled as one
opaque `Unauthorized` error.  The caller sees either the decision produced
by the inner body or the single string `Unauthorized`; no internal error
kind (expired vs. malformed vs. unknown key) crosses the boundary.  The
cache state is exactly what the inner body left behind. -/
theorem error_boundary_opaque (env : Env) (event : Event) (st : CacheState) :
    (lambdaHandler env event st).2 = (lambdaHandlerInner env event st).2 ∧
    (match (lambdaHandlerInner env event st).1 with
     | .error _ => (lambdaHandler env event st).1 = .error "Unauthorized"
     | .ok r => (lambdaHandler env event st).1 = .ok r) := by
  unfold lambdaHandler
  rcases h : lambdaHandlerInner env event st with ⟨res, st1⟩
  cases res <;> simp

/-- Claim C1, counterexample: a token that validates successfully but whose
groups lack the configured admin group does NOT produce a decision with a
Deny statement.  `lambdaHandler` never calls `denyAllMethods`; the builder
stays empty, `build()` throws, and the caller receives the opaque
`Unauthorized` error — no decision document at all. -/
theorem nonadmin_no_deny_decision_cex :
    (validate_token envNonAdmin "tok" "r1" ⟨true, []⟩).1 =
      .ok ⟨issR1, "access", "user-1", some ["Users"]⟩ ∧
    groupsInclude (some ["Users"]) "admins" = false ∧
    lambdaHandler envNonAdmin evBearer ⟨true, []⟩ =
      (.error "Unauthorized", ⟨false, [("k1", "PEM1")]⟩) ∧
    isDecision (lambdaHandler envNonAdmin evBearer ⟨true, []⟩).1 = false :=
  ⟨rfl, rfl, rfl, rfl⟩

/-- Claim C1, amended: for every token that validates successfully but
whose group claim does not contain the configured admin group, no rule is
ever added, `build()` fails with the empty-policy error, and the handler
re-signals the opaque `Unauthorized` error: the caller receives no decision
document (in particular never an empty statement list). -/
theorem nonadmin_token_unauthorized (env : Env) (event : Event)
    (st st1 : CacheState) (t5 : String) (payload : JwtPayload)
    (h5 : (jsSplit ':' event.methodArn)[5]? = some t5)
    (hb : jsStartsWith event.authorizationToken "Bearer " = true)
    (hv : validate_token env (jsDrop event.authorizationToken 7)
        (jsAt (jsSplit ':' event.methodArn) 3) st = (.ok payload, st1))
    (hg : groupsInclude payload.groups env.admin_group_name = false) :
    lambdaHandler env event st = (.error "Unauthorized", st1) := by
  rw [lambdaHandler_validated env event st st1 t5 payload h5 hb hv, hg]
  rfl

/-- Concrete run of the amended C1 statement: valid token, groups
`[Users]`, admin group `admins`. -/
theorem nonadmin_token_unauthorized_witness :
    lambdaHandler envNonAdmin evBearer ⟨true, []⟩ =
      (.error "Unauthorized", ⟨false, [("k1", "PEM1")]⟩) := by
  exact nonadmin_token_unauthorized envNonAdmin evBearer ⟨true, []⟩
    ⟨false, [("k1", "PEM1")]⟩ "abc/prod/GET/recipes"
    ⟨issR1, "access", "user-1", some ["Users"]⟩ rfl rfl rfl rfl

/-- Claim C3: a token that validates successfully and whose group claim
contains the configured admin group yields a decision whose principal is
the token's `sub` and whose single statement is an Allow on the resource
ARN `arn:aws:execute-api:<region>:<account>:<api>/<stage>/*/*` — wildcard
verb and wildcard resource path. -/
theorem admin_token_allow_decision (env : Env) (event : Event)
    (st st1 : CacheState) (t5 : String) (payload : JwtPayload)
    (h5 : (jsSplit ':' event.methodArn)[5]? = some t5)
    (hb : jsStartsWith event.authorizationToken "Bearer " = true)
    (hv : validate_token env (jsDrop event.authorizationToken 7)
        (jsAt (jsSplit ':' event.methodArn) 3) st = (.ok payload, st1))
    (hg : groupsInclude payload.groups env.admin_group_name = true) :
    lambdaHandler env event st =
      (.ok { principalId := payload.sub,
             policyDocument :=
               { Version := "2012-10-17",
                 Statement :=
                   [{ Action := "execute-api:Invoke",
                      Effect := "Allow",
                      Resource :=
                        ["arn:aws:execute-api:" ++
                            jsAt (jsSplit ':' event.methodArn) 3 ++ ":" ++
                            jsAt (jsSplit ':' event.methodArn) 4 ++ ":" ++
                            jsAt (jsSplit '/' t5) 0 ++ "/" ++
                            jsAt (jsSplit '/' t5) 1 ++ "/" ++ "*" ++ "/" ++
                            "*"],
                      Condition := none }] } }, st1) := by
  rw [lambdaHandler_validated env event st st1 t5 payload h5 hb hv, hg]
  rfl

/-- Concrete run of C3 on the spec's example ARN
`arn:aws:execute-api:r1:123:abc/prod/GET/recipes`. -/
theorem admin_token_allow_decision_witness :
    lambdaHandler envAdmin evBearer ⟨true, []⟩ =
      (.ok { principalId := "user-1",
             policyDocument :=
               { Version := "2012-10-17",
                 Statement :=
                   [{ Action := "execute-api:Invoke",
                      Effect := "Allow",
                      Resource := ["arn:aws:execute-api:r1:123:abc/prod/*/*"],
                      Condition := none }] } },
        ⟨false, [("k1", "PEM1")]⟩) := by
  exact admin_token_allow_decision envAdmin evBearer ⟨true, []⟩
    ⟨false, [("k1", "PEM1")]⟩ "abc/prod/GET/recipes"
    ⟨issR1, "access", "user-1", some ["admins"]⟩ rfl rfl rfl rfl

/-- Claim C4, counterexample: when the fetched key set has a well-formed
first key and a malformed second key, validation fails with the key-fetch
error but the cache does NOT remain empty — the first key's PEM was already
written into the module-global dictionary before the failure.  Only the
cold flag staying set makes the next request retry the fetch. -/
theorem key_cache_partial_population_cex :
    (validate_token envPartial "tok" "r1" ⟨true, []⟩).1 =
      .error .keyFetch ∧
    (validate_token envPartial "tok" "r1" ⟨true, []⟩).2 =
      ⟨true, [("k1", "PEM-n1")]⟩ ∧
    ((validate_token envPartial "tok" "r1" ⟨true, []⟩).2).pems ≠ [] :=
  ⟨rfl, rfl, by decide⟩

/-- Claim C4, amended: (1) once warm, validation never changes the cache
and is independent of the fetch oracle (no re-fetch, an unknown kid is
simply rejected — see C5's theorem for the rejection); (2) a failed cold
fetch fails the request with the key-fetch error and leaves the state
untouched, so the next request retries; (3) malformed key material fails
the request and keeps the cold flag set, but keys parsed before the failure
remain cached; (4) a successful cold load clears the cold flag and installs
the parsed keys, after which (1) applies for the rest of the process. -/
theorem key_cache_lifecycle (env : Env) (fk : Option (List Jwk))
    (token region : String) (st : CacheState) (keys : List Jwk) (e : AuthErr) :
    (st.is_cold_start = false →
      (validate_token env token region st).2 = st ∧
      validate_token { env with fetchKeys := fk } token region st =
        validate_token env token region st) ∧
    (st.is_cold_start = true → env.fetchKeys = none →
      validate_token env token region st = (.error .keyFetch, st)) ∧
    (st.is_cold_start = true → env.fetchKeys = some keys →
      (loadKeys env keys st.pems).1 = .error e →
      validate_token env token region st =
        (.error e,
          { is_cold_start := true, pems := (loadKeys env keys st.pems).2 })) ∧
    (st.is_cold_start = true → env.fetchKeys = some keys →
      (loadKeys env keys st.pems).1 = .ok () →
      (validate_token env token region st).2 =
        { is_cold_start := false, pems := (loadKeys env keys st.pems).2 }) := by
  obtain ⟨cold, pems⟩ := st
  refine ⟨?_, ?_, ?_, ?_⟩
  · intro h
    subst h
    constructor
    · rw [validate_token_state]
      rfl
    · rfl
  · intro h hf
    subst h
    unfold validate_token ensureKeys
    simp [hf]
  · intro h hf hl
    subst h
    unfold validate_token ensureKeys
    rcases hLK : loadKeys env keys pems with ⟨res, pems1⟩
    rw [hLK] at hl
    simp at hl
    subst hl
    simp [hf, hLK]
  · intro h hf hl
    subst h
    rw [validate_token_state]
    unfold ensureKeys
    rcases hLK : loadKeys env keys pems with ⟨res, pems1⟩
    rw [hLK] at hl
    simp at hl
    subst hl
    simp [hf, hLK]

/-- Concrete runs of all four branches of the cache lifecycle. -/
theorem key_cache_lifecycle_witness :
    ((validate_token envNonAdmin "tok" "r1" ⟨false, [("k1", "PEM1")]⟩).2 =
        ⟨false, [("k1", "PEM1")]⟩ ∧
      validate_token { envNonAdmin with fetchKeys := none } "tok" "r1"
          ⟨false, [("k1", "PEM1")]⟩ =
        validate_token envNonAdmin "tok" "r1" ⟨false, [("k1", "PEM1")]⟩) ∧
    validate_token { envNonAdmin with fetchKeys := none } "tok" "r1"
        ⟨true, []⟩ =
      (.error .keyFetch, ⟨true, []⟩) ∧
    validate_token envPartial "tok" "r1" ⟨true, []⟩ =
      (.error .keyFetch, ⟨true, [("k1", "PEM-n1")]⟩) ∧
    (validate_token envNonAdmin "tok" "r1" ⟨true, []⟩).2 =
      ⟨false, [("k1", "PEM1")]⟩ := by
  refine ⟨?_, ?_, ?_, ?_⟩
  · exact (key_cache_lifecycle envNonAdmin none "tok" "r1"
      ⟨false, [("k1", "PEM1")]⟩ [] .keyFetch).1 rfl
  · exact (key_cache_lifecycle { envNonAdmin with fetchKeys := none } none
      "tok" "r1" ⟨true, []⟩ [] .keyFetch).2.1 rfl rfl
  · exact (key_cache_lifecycle envPartial none "tok" "r1" ⟨true, []⟩
      [⟨"k1", "RSA", "n1", "e1"⟩, ⟨"k2", "RSA", "bad", "e2"⟩] .keyFetch).2.2.1
      rfl rfl rfl
  · exact (key_cache_lifecycle envNonAdmin none "tok" "r1" ⟨true, []⟩
      [⟨"k1", "RSA", "n1", "e1"⟩] .keyFetch).2.2.2 rfl rfl rfl

/-- Claim C5: the validation gates are ordered with first failure winning.
Given the key-load step succeeded, (a) a token whose issuer claim differs
from the expected issuer fails with the issuer error, and the outcome is
independent of the verify oracle — no signature verification is attempted;
(b) a token passing the issuer and purpose gates whose header kid has no
cached PEM fails with the unknown-key error, again independently of the
verify oracle — audience and expiry (checked inside `jwt.verify`) are never
consulted. -/
theorem validate_ordered_gates (env : Env)
    (v2 : String → String → String → String → Option JwtPayload)
    (token region : String) (st st1 : CacheState) (d : DecodedJwt)
    (hek : ensureKeys env st = (.ok (), st1))
    (hdec : env.decode token = some d) :
    (d.payload.iss ≠ issuerUrl env region →
      validate_token env token region st = (.error .invalidIssuer, st1) ∧
      validate_token { env with verify := v2 } token region st =
        validate_token env token region st) ∧
    (d.payload.iss = issuerUrl env region →
      d.payload.token_use = "access" →
      lookupPem st1.pems d.header.kid = "" →
      validate_token env token region st = (.error .invalidAccessToken, st1) ∧
      validate_token { env with verify := v2 } token region st =
        validate_token env token region st) := by
  constructor
  · intro hiss
    have h1 := validate_token_invalid_issuer env token region st st1 d hek hdec hiss
    have hek2 : ensureKeys { env with verify := v2 } st = (.ok (), st1) := by
      rw [ensureKeys_verify_irrel]
      exact hek
    have h2 := validate_token_invalid_issuer { env with verify := v2 } token
      region st st1 d hek2 hdec hiss
    exact ⟨h1, by rw [h1, h2]⟩
  · intro hiss huse hkid
    have h1 := validate_token_unknown_kid env token region st st1 d hek hdec
      hiss huse hkid
    have hek2 : ensureKeys { env with verify := v2 } st = (.ok (), st1) := by
      rw [ensureKeys_verify_irrel]
      exact hek
    have h2 := validate_token_unknown_kid { env with verify := v2 } token
      region st st1 d hek2 hdec hiss huse hkid
    exact ⟨h1, by rw [h1, h2]⟩

/-- Concrete runs of both gate-order branches: a foreign-issuer token and
an uncached-kid token against a warm cache. -/
theorem validate_ordered_gates_witness :
    validate_token envGates "tokBad" "r1" ⟨false, [("k1", "PEM1")]⟩ =
      (.error .invalidIssuer, ⟨false, [("k1", "PEM1")]⟩) ∧
    validate_token envGates "tokX" "r1" ⟨false, [("k1", "PEM1")]⟩ =
      (.error .invalidAccessToken, ⟨false, [("k1", "PEM1")]⟩) := by
  constructor
  · exact ((validate_ordered_gates envGates (fun _ _ _ _ => none) "tokBad"
      "r1" ⟨false, [("k1", "PEM1")]⟩ ⟨false, [("k1", "PEM1")]⟩
      ⟨⟨"k1"⟩, ⟨"https://evil.example/pool", "access", "u", none⟩⟩
      rfl rfl).1 (by decide)).1
  · exact ((validate_ordered_gates envGates (fun _ _ _ _ => none) "tokX"
      "r1" ⟨false, [("k1", "PEM1")]⟩ ⟨false, [("k1", "PEM1")]⟩
      ⟨⟨"kX"⟩, ⟨issR1, "access", "u", none⟩⟩
      rfl rfl).2 rfl rfl rfl).1

/-- Claim C6, counterexample: the source checks the verb against
`Object.keys(HttpVerb)`, which contains the KEY name `ALL` (whose value is
`*`).  The verb string `ALL` is therefore outside the spec's enumerated set
yet accepted, and is interpolated verbatim into the resource ARN instead of
failing with the invalid-verb error. -/
theorem verb_all_accepted_cex :
    specVerbSet.contains "ALL" = false ∧
    (AuthPolicy.init "p" "acct" "api" "r1" "dev").addMethod
        "Allow" "ALL" "recipes" none =
      .ok { principalId := "p", awsAccountId := "acct", restApiId := "api",
            region := "r1", stage := "dev",
            allowMethods :=
              [⟨"arn:aws:execute-api:r1:acct:api/dev/ALL/recipes", none⟩],
            denyMethods := [] } :=
  ⟨rfl, rfl⟩

/-- Claim C6, amended: `addMethod` fails with the invalid-verb error
exactly for verbs outside the set GET, POST, PUT, PATCH, DELETE, HEAD,
OPTIONS, ALL and the literal wildcard `*` (the `Object.keys` of the verb
map, plus the wildcard); it fails with the invalid-path error for every non-empty
resource path not matching `[/.A-Za-z0-9-*]+`; otherwise a leading `/` is
stripped and the rule is stored under the ARN
`arn:aws:execute-api:<region>:<account>:<api>/<stage>/<verb>/<path>`. -/
theorem addMethod_gates (p : AuthPolicy) (effect verb resource : String)
    (conditions : Option (List Cond)) :
    (verb ≠ "*" → verb ∉ httpVerbKeys →
      p.addMethod effect verb resource conditions = .error .invalidVerb) ∧
    ((verb = "*" ∨ verb ∈ httpVerbKeys) →
      resource.data ≠ [] → matchesPathRegex resource = false →
      p.addMethod effect verb resource conditions =
        .error .invalidResource) ∧
    ((verb = "*" ∨ verb ∈ httpVerbKeys) →
      (resource.data = [] ∨ matchesPathRegex resource = true) →
      effect = "Allow" →
      p.addMethod effect verb resource conditions =
        .ok { p with allowMethods := p.allowMethods ++
                [⟨"arn:aws:execute-api:" ++ p.region ++ ":" ++
                    p.awsAccountId ++ ":" ++ p.restApiId ++ "/" ++ p.stage ++
                    "/" ++ verb ++ "/" ++
                    (if resource.data.head? = some '/' then jsDrop resource 1
                     else resource),
                  conditions⟩] }) := by
  refine ⟨?_, ?_, ?_⟩
  · intro h1 h2
    simp [AuthPolicy.addMethod, h1, h2]
  · intro h1 h2 h3
    have hv : ¬(verb ≠ "*" ∧ verb ∉ httpVerbKeys) := by
      rcases h1 with h | h <;> simp [h]
    have hlen : 0 < resource.length :=
      List.length_pos.mpr h2
    simp [AuthPolicy.addMethod, hv, hlen, h3]
  · intro h1 h2 h3
    have hv : ¬(verb ≠ "*" ∧ verb ∉ httpVerbKeys) := by
      rcases h1 with h | h <;> simp [h]
    have hp : ¬(0 < resource.length ∧ matchesPathRegex resource = false) := by
      rcases h2 with h | h
      · rintro ⟨hpos, -⟩
        have hz : resource.length = 0 := by
          show resource.data.length = 0
          simp [h]
        omega
      · simp [h]
    subst h3
    simp [AuthPolicy.addMethod, hv, hp, jsToLower]

/-- Concrete runs of the three `addMethod` branches: bad verb, bad path,
and a successful add with the leading slash stripped. -/
theorem addMethod_gates_witness :
    (AuthPolicy.init "u" "a" "api" "r" "s").addMethod
        "Allow" "FETCH" "x" none = .error .invalidVerb ∧
    (AuthPolicy.init "u" "a" "api" "r" "s").addMethod
        "Allow" "GET" "a b" none = .error .invalidResource ∧
    (AuthPolicy.init "u" "a" "api" "r" "s").addMethod
        "Allow" "GET" "/recipes" (some []) =
      .ok { principalId := "u", awsAccountId := "a", restApiId := "api",
            region := "r", stage := "s",
            allowMethods :=
              [⟨"arn:aws:execute-api:r:a:api/s/GET/recipes", some []⟩],
            denyMethods := [] } := by
  refine ⟨?_, ?_, ?_⟩
  · exact (addMethod_gates (AuthPolicy.init "u" "a" "api" "r" "s")
      "Allow" "FETCH" "x" none).1 (by decide) (by decide)
  · exact (addMethod_gates (AuthPolicy.init "u" "a" "api" "r" "s")
      "Allow" "GET" "a b" none).2.1 (by decide) (by decide) rfl
  · exact (addMethod_gates (AuthPolicy.init "u" "a" "api" "r" "s")
      "Allow" "GET" "/recipes" (some [])).2.2 (by decide) (by decide) rfl

/-- Claim C7: `build()` renders, per effect bucket, each conditioned entry
as its own singleton statement carrying its condition block, in iteration
order, followed by one merged statement listing the resource ARNs of all
unconditioned entries — with the Allow bucket's statements before the Deny
bucket's. -/
theorem build_rendering (p : AuthPolicy)
    (h : ¬(p.allowMethods = [] ∧ p.denyMethods = [])) :
    p.build = .ok { principalId := p.principalId,
                    policyDocument :=
                      { Version := "2012-10-17",
                        Statement :=
                          get_statement_for_effect "Allow" p.allowMethods ++
                            get_statement_for_effect "Deny" p.denyMethods } } ∧
    (∀ effect ms, ms ≠ [] → get_statement_for_effect effect ms =
      ((ms.filter fun m => !isUnconditioned m.conditions).map
          (condStatement effect)) ++ [mergedStatement effect ms]) := by
  constructor
  · have hc : (p.allowMethods.length = 0 && p.denyMethods.length = 0) = false := by
      simp only [Bool.and_eq_false_iff, decide_eq_false_iff_not, List.length_eq_zero]
      tauto
    simp only [AuthPolicy.build, hc, Bool.false_eq_true, if_false]
  · intro eff ms hms
    exact get_statement_for_effect_eq eff ms hms

/-- The round-trip of C7: one unconditioned plus one conditioned Allow
rule render as exactly two Allow statements, the conditioned one first with
its condition preserved. -/
theorem build_rendering_witness :
    pRoundTrip.build =
      .ok { principalId := "u",
            policyDocument :=
              { Version := "2012-10-17",
                Statement :=
                  [{ Action := "execute-api:Invoke", Effect := "Allow",
                     Resource := ["arnC"], Condition := some ["ctx-cond"] },
                   { Action := "execute-api:Invoke", Effect := "Allow",
                     Resource := ["arnU"], Condition := none }] } } := by
  have h := (build_rendering pRoundTrip (by decide)).1
  rw [h]
  rfl

/-- Claim C8: `build()` fails with the empty-policy error precisely when
no rule was ever added, and every decision it does return carries at least
one statement. -/
theorem build_empty_policy (p : AuthPolicy) :
    (p.build = .error .emptyPolicy ↔
      p.allowMethods = [] ∧ p.denyMethods = []) ∧
    (∀ r, p.build = .ok r → r.policyDocument.Statement ≠ []) := by
  by_cases hA : p.allowMethods = []
  · by_cases hD : p.denyMethods = []
    · refine ⟨by simp [AuthPolicy.build, hA, hD], ?_⟩
      intro r hr
      simp [AuthPolicy.build, hA, hD] at hr
    · refine ⟨by simp [AuthPolicy.build, hA, hD], ?_⟩
      intro r hr
      simp [AuthPolicy.build, hA, hD] at hr
      rw [← hr]
      simp [hA, hD, get_statement_for_effect_eq "Deny" p.denyMethods hD,
        get_statement_for_effect]
  · refine ⟨by simp [AuthPolicy.build, hA], ?_⟩
    intro r hr
    simp [AuthPolicy.build, hA] at hr
    rw [← hr]
    simp [get_statement_for_effect_eq "Allow" p.allowMethods hA]

/-- Concrete runs of C8: an empty builder fails, and a one-deny-rule
builder's decision has a non-empty statement list. -/
theorem build_empty_policy_witness :
    (AuthPolicy.init "u" "a" "api" "r" "s").build = .error .emptyPolicy ∧
    ({ principalId := "u",
       policyDocument :=
         { Version := "2012-10-17",
           Statement :=
             [{ Action := "execute-api:Invoke", Effect := "Deny",
                Resource := ["arnD"], Condition := none }] } } :
        AuthResponse).policyDocument.Statement ≠ [] := by
  constructor
  · exact (build_empty_policy (AuthPolicy.init "u" "a" "api" "r" "s")).1.mpr
      ⟨rfl, rfl⟩
  · exact (build_empty_policy
      ⟨"u", "a", "api", "r", "s", [], [⟨"arnD", none⟩]⟩).2 _ rfl

/-- Claim C9: a request whose authorization header does not start with
the `Bearer` scheme marker is rejected with the opaque `Unauthorized` error, the cache
state is returned unchanged, and the outcome is independent of the key-set
fetch oracle — token validation (and hence the fetch) is never invoked. -/
theorem bad_scheme_frame (env : Env) (fk : Option (List Jwk)) (event : Event)
    (st : CacheState)
    (h : jsStartsWith event.authorizationToken "Bearer " = false) :
    lambdaHandler env event st = (.error "Unauthorized", st) ∧
    lambdaHandler { env with fetchKeys := fk } event st =
      lambdaHandler env event st := by
  have key : ∀ (E : Env), lambdaHandler E event st = (.error "Unauthorized", st) := by
    intro E
    unfold lambdaHandler lambdaHandlerInner
    cases h5 : (jsSplit ':' event.methodArn)[5]? with
    | none => simp [h5]
    | some t5 => simp [h5, h]
  exact ⟨key env, by rw [key env, key { env with fetchKeys := fk }]⟩

/-- Concrete run of C9 with a `Basic` scheme header on a cold cache. -/
theorem bad_scheme_frame_witness :
    lambdaHandler envNonAdmin
        ⟨"arn:aws:execute-api:r1:123:abc/prod/GET/x", "Basic abc"⟩
        ⟨true, []⟩ =
      (.error "Unauthorized", ⟨true, []⟩) ∧
    lambdaHandler { envNonAdmin with fetchKeys := none }
        ⟨"arn:aws:execute-api:r1:123:abc/prod/GET/x", "Basic abc"⟩
        ⟨true, []⟩ =
      lambdaHandler envNonAdmin
        ⟨"arn:aws:execute-api:r1:123:abc/prod/GET/x", "Basic abc"⟩
        ⟨true, []⟩ :=
  bad_scheme_frame envNonAdmin none
    ⟨"arn:aws:execute-api:r1:123:abc/prod/GET/x", "Basic abc"⟩
    ⟨true, []⟩ rfl

/-- Claim C10: on a non-empty bucket the merged bulk statement is appended
unconditionally as the last statement; a bucket whose entries all carry
conditions therefore renders as the conditioned singletons followed by one
extra statement of that effect whose `Resource` list is empty. -/
theorem merged_statement_unconditional (effect : String) (ms : List Method)
    (h : ms ≠ []) :
    (get_statement_for_effect effect ms).getLast? =
      some (mergedStatement effect ms) ∧
    ((∀ m ∈ ms, isUnconditioned m.conditions = false) →
      get_statement_for_effect effect ms =
        ms.map (condStatement effect) ++
          [{ get_empty_statement effect with Resource := [] }]) := by
  constructor
  · rw [get_statement_for_effect_eq effect ms h]
    exact List.getLast?_concat _
  · intro hall
    rw [get_statement_for_effect_eq effect ms h]
    have h1 : ms.filter (fun m => !isUnconditioned m.conditions) = ms := by
      rw [List.filter_eq_self]
      intro m hm
      simp [hall m hm]
    have h2 : ms.filter (fun m => isUnconditioned m.conditions) = [] := by
      rw [List.filter_eq_nil_iff]
      intro m hm
      simp [hall m hm]
    simp [h1, h2, mergedStatement]

/-- Concrete run of C10 on a Deny bucket holding a single conditioned
rule. -/
theorem merged_statement_unconditional_witness :
    (get_statement_for_effect "Deny" msCondOnly).getLast? =
      some (mergedStatement "Deny" msCondOnly) ∧
    get_statement_for_effect "Deny" msCondOnly =
      msCondOnly.map (condStatement "Deny") ++
        [{ get_empty_statement "Deny" with Resource := [] }] := by
  have h := merged_statement_unconditional "Deny" msCondOnly (by decide)
  exact ⟨h.1, h.2 (by decide)⟩

end Authorizer
